import Mathlib

/-!
Shallow embedding of the SwiftWeather client (src/App.js) and proofs about
its caching layer, data fetchers and controller.

Modelling conventions:
* JS numbers used as timestamps (`Date.now()`, ttl) are `Int` milliseconds;
  coordinates are `ℚ` (the app never relies on binary floating point).
* `localStorage` is an association list from string keys to raw entries;
  a raw entry is either text that `JSON.parse` rejects (`Stored.malformed`)
  or a parsed object whose `val` / `exp` fields may each be absent
  (`Stored.parsed`), the JS `undefined` being `Option.none`.
* The in-memory `Map` (`mem`) maps keys to the stored JS value, which may
  itself be `undefined`, hence `Option α`.
* JS exceptions are `Except String`; `cacheGetBody` is the body of
  `cacheGet` with the `try`/`catch` removed so that the `JSON.parse`
  failure propagates, and `cacheGet` wraps it with the `catch {}` /
  `return null` of the source.
-/

namespace SwiftWeather

/-- Cache keys are `localStorage` keys (strings). -/
abbrev Key := String

/-- A raw `localStorage` entry as `cacheGet` sees it after `getItem`:
either text `JSON.parse` throws on, or a parsed object whose `val` and
`exp` fields may be missing (JS `undefined`). -/
inductive Stored (α : Type) where
  | malformed : Stored α
  | parsed (val : Option α) (exp : Option Int) : Stored α
deriving DecidableEq

/-- State of the two-tier cache: the in-session `Map` `mem`, the
persistent `localStorage` contents, and the current clock `Date.now()`. -/
structure CacheState (α : Type) where
  mem : List (Key × Option α)
  store : List (Key × Stored α)
  time : Int
deriving DecidableEq

/-- First-match association-list lookup: `Map.get` / `localStorage.getItem`. -/
def lookupA {β : Type} : List (Key × β) → Key → Option β
  | [], _ => none
  | (k', v) :: rest, k => if k' = k then some v else lookupA rest k

/-- Overwriting insert: `Map.set` / `localStorage.setItem` (prepend; `lookupA`
takes the first match, so the new binding shadows any old one). -/
def insertA {β : Type} (l : List (Key × β)) (k : Key) (v : β) : List (Key × β) :=
  (k, v) :: l

/-- `JSON.parse(raw)`: throws on malformed text, otherwise yields the
object's `val` and `exp` fields. -/
def jsonParse {α : Type} : Stored α → Except String (Option α × Option Int)
  | .malformed => .error "SyntaxError: JSON.parse"
  | .parsed v e => .ok (v, e)

/-- The JS comparison `obj.exp > now()`: `false` whenever `exp` is
`undefined` (NaN comparisons are false). -/
def expGt (e : Option Int) (t : Int) : Bool :=
  match e with
  | some e => decide (t < e)
  | none => false

/-- Result of one `cacheGet` call: the returned JS value (`none` is
`null`/`undefined`, i.e. absent), the in-memory map afterwards, and
whether `localStorage` was consulted. -/
structure GetResult (α : Type) where
  val : Option α
  mem : List (Key × Option α)
  consultedStore : Bool
deriving DecidableEq

/-- Body of `cacheGet` (src/App.js:15-21) with the `try`/`catch` removed:
memory first; on miss read `localStorage`; absent raw ⟹ `null`;
`JSON.parse` may throw; a fresh `exp` promotes `obj.val` into `mem`. -/
def cacheGetBody {α : Type} (s : CacheState α) (k : Key) :
    Except String (GetResult α) :=
  match lookupA s.mem k with
  | some v => .ok ⟨v, s.mem, false⟩
  | none =>
    match lookupA s.store k with
    | none => .ok ⟨none, s.mem, true⟩
    | some raw =>
      match jsonParse raw with
      | .error e => .error e
      | .ok (v, e) =>
        if expGt e s.time then .ok ⟨v, insertA s.mem k v, true⟩
        else .ok ⟨none, s.mem, true⟩

/-- `cacheGet` (src/App.js:15-21): the body wrapped in the source's
`try { ... } catch {}` followed by `return null`. -/
def cacheGet {α : Type} (s : CacheState α) (k : Key) : GetResult α :=
  match cacheGetBody s k with
  | .ok r => r
  | .error _ => ⟨none, s.mem, true⟩

/-- `cacheSet` (src/App.js:22): write to `mem` and to `localStorage` as
the envelope `{val, exp: now()+ttl}`. -/
def cacheSet {α : Type} (s : CacheState α) (k : Key) (v : α) (ttl : Int) :
    CacheState α :=
  { s with
    mem := insertA s.mem k (some v)
    store := insertA s.store k (.parsed (some v) (some (s.time + ttl))) }

/-- Advance the wall clock by `d` milliseconds; the session (and hence
`mem`) is unchanged. -/
def tick {α : Type} (s : CacheState α) (d : Int) : CacheState α :=
  { s with time := s.time + d }

/-- A new page session: a fresh (empty) in-memory `Map`, the same
`localStorage` and clock. -/
def freshSession {α : Type} (s : CacheState α) : CacheState α :=
  { s with mem := [] }

/-- Two-digit zero padding for the fractional digits of `toFixed(2)`. -/
def pad2 (n : Nat) : String :=
  if n < 10 then "0" ++ toString n else toString n

/-- `x.toFixed(2)` for a nonnegative rational: round half-up to hundredths
and print integer part, a dot, and two fractional digits. -/
def toFixed2nn (x : ℚ) : String :=
  let n := (⌊x * 100 + 1 / 2⌋).toNat
  toString (n / 100) ++ "." ++ pad2 (n % 100)

/-- `Number.prototype.toFixed(2)` on an exact rational: the sign is
extracted first, then the magnitude is rounded half-up to two decimals. -/
def toFixed2 (x : ℚ) : String :=
  if x < 0 then "-" ++ toFixed2nn (-x) else toFixed2nn x

/-- Result of `getJSON`: the payload, whether it was served from cache, and
the measured network latency on a miss. -/
structure FetchResult (α : Type) where
  data : α
  cached : Bool
  ms : Option Nat
deriving DecidableEq

/-- `getJSON(url,key)` (src/App.js:24-32), the network modelled by the
response the fetch would yield and its latency. The payloads this app
stores are JSON objects/arrays, which are truthy in JS, so the source's
`if(cached)` test is `isSome` here. On a hit the cached data is returned;
on a miss the request is issued and the response cached for 10 minutes.
Returns the result, the new cache state and the requests issued. -/
def getJSON {α ρ : Type} (s : CacheState α) (req : ρ) (key : Key)
    (response : α) (ms : Nat) : FetchResult α × CacheState α × List ρ :=
  let g := cacheGet s key
  match g.val with
  | some c => (⟨c, true, none⟩, { s with mem := g.mem }, [])
  | none =>
    (⟨response, false, some ms⟩,
      cacheSet { s with mem := g.mem } key response (1000 * 60 * 10), [req])

/-- The query parameters of the forecast URL built in src/App.js:48. -/
structure ForecastRequest where
  latitude : ℚ
  longitude : ℚ
  current_weather : Bool
  hourly : List String
  daily : List String
  forecast_days : Nat
  timezone : String
  temperature_unit : String
deriving DecidableEq

/-- The forecast cache key `meteo:<lat.toFixed(2)>,<lon.toFixed(2)>:<units>`
(src/App.js:46). -/
def forecastKey (lat lon : ℚ) (units : String) : Key :=
  "meteo:" ++ toFixed2 lat ++ "," ++ toFixed2 lon ++ ":" ++ units

/-- The request `forecast` issues on a cache miss (src/App.js:48). -/
def forecastRequest (lat lon : ℚ) (units : String) : ForecastRequest :=
  ⟨lat, lon, true, ["temperature_2m", "precipitation_probability"],
    ["temperature_2m_max", "temperature_2m_min",
      "precipitation_probability_mean", "weathercode"],
    7, "auto", if units = "imperial" then "fahrenheit" else "celsius"⟩

/-- `forecast(lat,lon,units)` (src/App.js:45-51): `getJSON` under the
derived key. -/
def forecast {α : Type} (s : CacheState α) (lat lon : ℚ) (units : String)
    (response : α) (ms : Nat) :
    FetchResult α × CacheState α × List ForecastRequest :=
  getJSON s (forecastRequest lat lon units) (forecastKey lat lon units)
    response ms

/-- Candidate places returned by the geocoding endpoint; none of their
fields matter to the properties below, so they stay opaque. -/
abbrev Place := String

/-- `q.toLowerCase()` (src/App.js:36): lower-case every character. -/
def toLowerCase (s : String) : String :=
  String.mk (s.toList.map Char.toLower)

/-- The geocode cache key `geo:<query.toLowerCase()>` (src/App.js:36). -/
def geoKey (q : String) : Key :=
  "geo:" ++ toLowerCase q

/-- `geocode(q)` (src/App.js:35-43), the network modelled by the `results`
field of the JSON the fetch would yield (`none` when the field is absent):
a cache hit short-circuits; on a miss `res.results || []` is cached for 30
days and returned. Also returns the queries sent over the network. -/
def geocode (s : CacheState (List Place)) (q : String)
    (response : Option (List Place)) :
    List Place × CacheState (List Place) × List String :=
  let g := cacheGet s (geoKey q)
  match g.val with
  | some c => (c, { s with mem := g.mem }, [])
  | none =>
    let data := response.getD []
    (data,
      cacheSet { s with mem := g.mem } (geoKey q) data
        (1000 * 60 * 60 * 24 * 30), [q])

/-- Timeline semantics of `debounce(fn, wait)` (src/App.js:122) over a
strictly time-ordered keystroke list `(time, value)`: each keystroke clears
any pending timer and schedules `fn(value)` at `time + wait`, so a
scheduled call fires iff no later keystroke arrives before its fire time.
Returns the fired calls as `(fire time, value)`. -/
def debounceFires (wait : Nat) : List (Nat × String) → List (Nat × String)
  | [] => []
  | [(t, v)] => [(t + wait, v)]
  | (t, v) :: (t', v') :: rest =>
    if t + wait < t' then
      (t + wait, v) :: debounceFires wait ((t', v') :: rest)
    else debounceFires wait ((t', v') :: rest)

/-- The `!text.trim()` guard of `search` (src/App.js:124): trimming leaves
the empty string exactly when every character is whitespace. -/
def trimmedEmpty (s : String) : Bool :=
  s.toList.all (fun c => c.isWhitespace)

/-- The debounced `search` handler (src/App.js:123-135) issues a geocode
call for each debounce fire whose text is nonempty after trimming. -/
def searchGeocodeCalls (wait : Nat) (ks : List (Nat × String)) :
    List (Nat × String) :=
  (debounceFires wait ks).filter (fun p => !trimmedEmpty p.2)

/-- The persisted `lastCoords` record `{lat, lon, place}` (src/App.js:158). -/
structure LastRec where
  lat : ℚ
  lon : ℚ
  place : Option String
deriving DecidableEq

/-- The module-level `state` object: unit system plus the active
coordinates and place name, each absent (`undefined`) until first set. -/
structure AppState where
  units : String
  lat : Option ℚ
  lon : Option ℚ
  place : Option String
deriving DecidableEq

/-- UI transitions logged by the renderer: the skeleton placeholders shown
by `showSkeleton`, and a completed render of fetched data. -/
inductive UiEv where
  | skeleton
  | render
deriving DecidableEq

/-- One browser session: the `state` object, the persisted `units` and
`lastCoords` keys of `localStorage`, the ordered log of UI transitions,
and whether `obs.observe(document.body, ...)` (src/App.js:159) has been
executed yet — a `MutationObserver` delivers no records for mutations
that precede `observe`, and line 159 runs only after `init()`. -/
structure World where
  app : AppState
  storedUnits : Option String
  lastCoords : Option LastRec
  ui : List UiEv
  observing : Bool
deriving DecidableEq

/-- JS truthiness of `state.lat` / `state.lon`: absent (`undefined`) and
the number 0 are falsy. -/
def truthyCoord : Option ℚ → Bool
  | none => false
  | some x => decide (x ≠ 0)

/-- The `MutationObserver` callback (src/App.js:158): after any DOM
mutation, if `state.lat && state.lon` (truthiness), persist
`{lat, lon, place}` under `lastCoords`. Under the guard both coordinates
are `some` of a nonzero value, so `getD 0` only extracts them. -/
def observerCb (w : World) : World :=
  if truthyCoord w.app.lat && truthyCoord w.app.lon then
    { w with
      lastCoords := some ⟨w.app.lat.getD 0, w.app.lon.getD 0, w.app.place⟩ }
  else w

/-- `setUnits(units)` (src/App.js:58): record the new unit system in
`state` and `localStorage`; the returned Bool reports whether the
truthiness guard `state.lat && state.lon` triggered a `loadWeather`
re-fetch. -/
def setUnits (w : World) (u : String) : World × Bool :=
  let w1 := { w with app := { w.app with units := u }, storedUnits := some u }
  (w1, truthyCoord w1.app.lat && truthyCoord w1.app.lon)

/-- Deliver the DOM mutations just made: the observer callback runs only
if `obs.observe` has already been executed (mutations made before line 159
runs are never delivered). -/
def deliverMutations (w : World) : World :=
  if w.observing then observerCb w else w

/-- Events of the controller: `startLoad` is the synchronous part of
`loadWeather` (src/App.js:113-114) — set `state.lat`/`state.lon`, show the
skeleton (a DOM mutation); `loadOk` is the forecast promise resolving and
rendering (src/App.js:116-118, more DOM mutations); `loadFail` is the
promise rejecting — unhandled, nothing further happens; `setPlace` is a
suggestion click setting `state.place` (src/App.js:139 — its other effects,
a style change and an input-value write, are not childList mutations, so
the observer does not fire for them). -/
inductive Ev where
  | startLoad (lat lon : ℚ)
  | loadOk
  | loadFail
  | setPlace (p : String)
deriving DecidableEq

/-- One event acting on the session; DOM-mutating events are followed by
mutation delivery. -/
def step (w : World) : Ev → World
  | .startLoad la lo =>
    deliverMutations
      { w with
        app := { w.app with lat := some la, lon := some lo }
        ui := w.ui ++ [.skeleton] }
  | .loadOk => deliverMutations { w with ui := w.ui ++ [.render] }
  | .loadFail => w
  | .setPlace p => { w with app := { w.app with place := some p } }

/-- Run a sequence of controller events. -/
def runTrace (w : World) (evs : List Ev) : World :=
  evs.foldl step w

/-- `init` (src/App.js:153-157): read `lastCoords`; when present, restore
its place and start loading its coordinates; otherwise default the place to
"Mumbai, IN" and start loading the fallback (19.076, 72.8777). Takes the
persisted `units` and `lastCoords` values as read from `localStorage`
(`state.units = localStorage.getItem('units') || 'metric'`). The observer
is attached (src/App.js:158-159) only after the init load has started, so
the init skeleton mutation is never delivered; the init load's own
`loadOk`/`loadFail` settle later, with the observer attached. -/
def initWorld (storedUnits : Option String) (persisted : Option LastRec) :
    World :=
  let app0 : AppState := ⟨storedUnits.getD "metric", none, none, none⟩
  let w0 : World := ⟨app0, storedUnits, persisted, [], false⟩
  let w1 :=
    match persisted with
    | some l =>
      step { w0 with app := { app0 with place := l.place } }
        (.startLoad l.lat l.lon)
    | none =>
      step { w0 with app := { app0 with place := some "Mumbai, IN" } }
        (.startLoad 19.076 72.8777)
  { w1 with observing := true }

end SwiftWeather

namespace SwiftWeather

/-- C5: for every cache state, key, value and ttl > 0, a `cacheGet`
immediately after `cacheSet` (no clock advance) returns the value: the
set wrote the value into the in-memory map and `cacheGet` reads memory
first. -/
theorem cacheGet_after_cacheSet (s : CacheState String) (k : Key) (v : String)
    (ttl : Int) (h : 0 < ttl) :
    (cacheGet (cacheSet s k v ttl) k).val = some v := by
  simp [cacheGet, cacheGetBody, cacheSet, insertA, lookupA]

/-- Witness for `cacheGet_after_cacheSet` at a concrete input. -/
theorem cacheGet_after_cacheSet_witness :
    (0 : Int) < 5 ∧
      (cacheGet (cacheSet (⟨[], [], 0⟩ : CacheState String) "k" "v" 5) "k").val
        = some "v" :=
  ⟨by decide, cacheGet_after_cacheSet ⟨[], [], 0⟩ "k" "v" 5 (by decide)⟩

/-- C1 counterexample: set `"k" ↦ "v"` with ttl 5ms at time 0, advance the
clock to 10 (past expiry 5); the entry is still in the in-memory map and
`cacheGet` returns `"v"`, not absent — `cacheGet` never checks expiry on a
memory hit, refuting the claim that expiry wins "including when the entry
is still present in the in-memory map". -/
theorem cacheGet_memory_hit_ignores_expiry :
    (tick (cacheSet (⟨[], [], 0⟩ : CacheState String) "k" "v" 5) 10).time = 10 ∧
      lookupA (tick (cacheSet (⟨[], [], 0⟩ : CacheState String) "k" "v" 5) 10).store "k"
        = some (.parsed (some "v") (some 5)) ∧
      (cacheGet (tick (cacheSet (⟨[], [], 0⟩ : CacheState String) "k" "v" 5) 10) "k").val
        = some "v" := by
  refine ⟨rfl, ?_, ?_⟩ <;> decide

/-- C1 amended: once the entry is no longer in the in-memory map (e.g. in a
fresh session, where only `localStorage` holds it), a `cacheGet` after the
clock has advanced past `set time + ttl` returns absent. -/
theorem cacheGet_expired_fresh_session_absent (s : CacheState String) (k : Key)
    (v : String) (ttl d : Int) (h1 : 0 < ttl) (h2 : ttl ≤ d) :
    (cacheGet (freshSession (tick (cacheSet s k v ttl) d)) k).val = none := by
  simp only [cacheGet, cacheGetBody, freshSession, tick, cacheSet, insertA,
    lookupA, jsonParse, expGt]
  have : ¬ (s.time + d < s.time + ttl) := by omega
  simp [this]

/-- Witness for `cacheGet_expired_fresh_session_absent` at a concrete input. -/
theorem cacheGet_expired_fresh_session_absent_witness :
    (0 : Int) < 5 ∧ (5 : Int) ≤ 10 ∧
      (cacheGet (freshSession (tick (cacheSet (⟨[], [], 0⟩ : CacheState String) "k" "v" 5) 10)) "k").val
        = none :=
  ⟨by decide, by decide,
    cacheGet_expired_fresh_session_absent ⟨[], [], 0⟩ "k" "v" 5 10 (by decide) (by decide)⟩

/-- C4: an entry present only in `localStorage` and still fresh
(`time < exp`) is returned by one `cacheGet`, which consulted the store and
promoted the value into the in-memory map; the next `cacheGet` for that key
returns the same value from memory without consulting the store. -/
theorem cacheGet_promotes (s : CacheState String) (k : Key) (v : String)
    (e : Int) (hmem : lookupA s.mem k = none)
    (hstore : lookupA s.store k = some (.parsed (some v) (some e)))
    (hfresh : s.time < e) :
    (cacheGet s k).val = some v ∧
      (cacheGet s k).consultedStore = true ∧
      (cacheGet { s with mem := (cacheGet s k).mem } k).val = some v ∧
      (cacheGet { s with mem := (cacheGet s k).mem } k).consultedStore = false := by
  simp [cacheGet, cacheGetBody, hmem, hstore, jsonParse, expGt, hfresh,
    insertA, lookupA]

/-- Witness for `cacheGet_promotes` at a concrete input. -/
theorem cacheGet_promotes_witness :
    lookupA ([] : List (Key × Option String)) "k" = none ∧
      lookupA [("k", Stored.parsed (some "v") (some 9))] "k"
        = some (.parsed (some "v") (some 9)) ∧
      (0 : Int) < 9 ∧
      (cacheGet (⟨[], [("k", .parsed (some "v") (some 9))], 0⟩ : CacheState String) "k").val
        = some "v" :=
  ⟨rfl, by decide, by decide,
    (cacheGet_promotes ⟨[], [("k", .parsed (some "v") (some 9))], 0⟩ "k" "v" 9
      rfl (by decide) (by decide)).1⟩

/-- C8: `cacheGet` never lets an error escape and treats bad persistent
entries as absent: on a memory miss, a malformed entry makes the uncaught
body throw `SyntaxError` while `cacheGet` itself returns absent; an entry
whose `exp` has passed, or which lacks an `exp` field, yields absent; and
whenever the uncaught body throws, `cacheGet` returns absent. -/
theorem cacheGet_bad_entries_absent (s : CacheState String) (k : Key) :
    (lookupA s.mem k = none → lookupA s.store k = some .malformed →
      cacheGetBody s k = .error "SyntaxError: JSON.parse" ∧
        (cacheGet s k).val = none) ∧
    (∀ v e, lookupA s.mem k = none →
      lookupA s.store k = some (.parsed v (some e)) → e ≤ s.time →
      (cacheGet s k).val = none) ∧
    (∀ v, lookupA s.mem k = none →
      lookupA s.store k = some (.parsed v none) →
      (cacheGet s k).val = none) ∧
    (∀ msg, cacheGetBody s k = .error msg → (cacheGet s k).val = none) := by
  refine ⟨fun hmem hstore => ?_, fun v e hmem hstore hexp => ?_,
    fun v hmem hstore => ?_, fun msg herr => ?_⟩
  · simp [cacheGet, cacheGetBody, hmem, hstore, jsonParse]
  · have : ¬ (s.time < e) := by omega
    simp [cacheGet, cacheGetBody, hmem, hstore, jsonParse, expGt, this]
  · simp [cacheGet, cacheGetBody, hmem, hstore, jsonParse, expGt]
  · simp [cacheGet, herr]

/-- Witness for `cacheGet_bad_entries_absent`: a malformed entry and an
expired entry, both read as absent. -/
theorem cacheGet_bad_entries_absent_witness :
    (cacheGet (⟨[], [("k", Stored.malformed)], 0⟩ : CacheState String) "k").val = none ∧
      (cacheGet (⟨[], [("k", .parsed (some "v") (some 3))], 7⟩ : CacheState String) "k").val = none :=
  ⟨((cacheGet_bad_entries_absent ⟨[], [("k", .malformed)], 0⟩ "k").1 rfl rfl).2,
    (cacheGet_bad_entries_absent ⟨[], [("k", .parsed (some "v") (some 3))], 7⟩ "k").2.1
      "v" 3 rfl (by decide) (by decide)⟩

/-- Helper: when both coordinates are set and nonzero, the observer
callback persists them together with the current place name. -/
theorem observerCb_sets (w : World) (la lo : ℚ) (hla : w.app.lat = some la)
    (hlo : w.app.lon = some lo) (h1 : la ≠ 0) (h2 : lo ≠ 0) :
    observerCb w = { w with lastCoords := some ⟨la, lo, w.app.place⟩ } := by
  simp [observerCb, truthyCoord, hla, hlo, h1, h2]

/-- Helper: the observer callback only ever touches `lastCoords`. -/
theorem observerCb_skip (w : World) :
    (observerCb w).app = w.app ∧ (observerCb w).ui = w.ui := by
  unfold observerCb; split <;> simp

/-- Helper: the session produced by `init` on a cold start, computed out.
The init skeleton mutation precedes `obs.observe`, so `lastCoords` stays
absent. -/
theorem initWorld_cold (su : Option String) :
    initWorld su none =
      ⟨⟨su.getD "metric", some 19.076, some 72.8777, some "Mumbai, IN"⟩, su,
        none, [UiEv.skeleton], true⟩ := by
  simp [initWorld, step, deliverMutations]

/-- C2 counterexample: the cold-start init load succeeds (render observed,
fallback coordinates persisted); the user then selects "Paris, France" and
its load starts — the skeleton mutation is observed, persisting the new
coordinates — and that forecast fails. `lastCoords` now names the failed
load's coordinates and place, not the most recently successfully loaded
ones, and the UI log shows the second load never rendered. -/
theorem lastCoords_persisted_for_failed_later_load :
    (runTrace (initWorld none none)
        [.loadOk, .setPlace "Paris, France", .startLoad 48.86 2.35, .loadFail]).lastCoords
        = some ⟨48.86, 2.35, some "Paris, France"⟩ ∧
      (runTrace (initWorld none none)
          [.loadOk, .setPlace "Paris, France", .startLoad 48.86 2.35, .loadFail]).ui
        = [UiEv.skeleton, UiEv.render, UiEv.skeleton] := by
  have h1 : (19.076 : ℚ) ≠ 0 := by norm_num
  have h2 : (72.8777 : ℚ) ≠ 0 := by norm_num
  have h3 : (48.86 : ℚ) ≠ 0 := by norm_num
  have h4 : (2.35 : ℚ) ≠ 0 := by norm_num
  rw [runTrace, initWorld_cold]
  refine ⟨?_, ?_⟩ <;>
    simp [step, deliverMutations, observerCb, truthyCoord, h1, h2, h3, h4]

/-- C2 amended: the observer is attached only after `init`, so the initial
load persists nothing at its start (`init` leaves `lastCoords` exactly as
read from storage); but once the observer is attached, every load persists
its coordinates and the current place name already at load start — the
skeleton's DOM mutation — whether or not that load later completes, so the
persisted record tracks the most recent observed load attempt, not the most
recent successful load. -/
theorem lastCoords_persisted_at_later_load_start :
    (∀ (su : Option String) (p : Option LastRec),
      (initWorld su p).lastCoords = p) ∧
    (∀ (w : World) (la lo : ℚ), w.observing = true → la ≠ 0 → lo ≠ 0 →
      (step w (.startLoad la lo)).lastCoords = some ⟨la, lo, w.app.place⟩) := by
  constructor
  · intro su p
    cases p <;> simp [initWorld, step, deliverMutations]
  · intro w la lo hobs h1 h2
    rw [step]
    simp only [deliverMutations, hobs, if_true]
    rw [observerCb_sets _ la lo rfl rfl h1 h2]

/-- Witness for `lastCoords_persisted_at_later_load_start` at concrete
inputs. -/
theorem lastCoords_persisted_at_later_load_start_witness :
    (initWorld none (some ⟨3, 4, some "x"⟩)).lastCoords = some ⟨3, 4, some "x"⟩ ∧
      (⟨⟨"metric", none, none, some "Paris, France"⟩, none, none, [], true⟩ : World).observing
          = true ∧
      (1 : ℚ) ≠ 0 ∧ (2 : ℚ) ≠ 0 ∧
      (step ⟨⟨"metric", none, none, some "Paris, France"⟩, none, none, [], true⟩
          (.startLoad 1 2)).lastCoords = some ⟨1, 2, some "Paris, France"⟩ :=
  ⟨lastCoords_persisted_at_later_load_start.1 none (some ⟨3, 4, some "x"⟩),
    rfl, one_ne_zero, two_ne_zero,
    lastCoords_persisted_at_later_load_start.2
      ⟨⟨"metric", none, none, some "Paris, France"⟩, none, none, [], true⟩
      1 2 rfl one_ne_zero two_ne_zero⟩

/-- C3 counterexample: keystrokes at t=0,50,100,300 ms under a 300 ms
debounce window issue no geocode call at t=400: the keystroke at t=300
cancels the timer pending for t=400 and restarts it. -/
theorem debounce_no_call_at_400 :
    searchGeocodeCalls 300 [(0, "L"), (50, "Lo"), (100, "Lon"), (300, "Lond")]
      ≠ [(400, "Lond")] := by decide

/-- C3 amended: for keystrokes at t=0,50,100,300 ms under a 300 ms debounce
window, exactly one geocode call is issued, at t=600 ms (300 ms after the
final keystroke), carrying the final input value. -/
theorem debounce_single_call_at_600 :
    searchGeocodeCalls 300 [(0, "L"), (50, "Lo"), (100, "Lon"), (300, "Lond")]
      = [(600, "Lond")] := by decide

/-- C6: `forecast` uses the cache key built from the two coordinates each
formatted by `toFixed(2)` plus the unit system — so the key depends on the
coordinates only through that rounding — and on a cache miss it issues
exactly one request, whose `temperature_unit` is `fahrenheit` exactly when
the units are `imperial` and `celsius` otherwise, caching the response with
expiry 10 minutes from now. -/
theorem forecast_cache_key_and_request (s : CacheState String) (lat lon : ℚ)
    (units resp : String) (ms : Nat)
    (hmiss : (cacheGet s (forecastKey lat lon units)).val = none) :
    forecastKey lat lon units
        = "meteo:" ++ toFixed2 lat ++ "," ++ toFixed2 lon ++ ":" ++ units ∧
      (∀ lat' lon', toFixed2 lat' = toFixed2 lat → toFixed2 lon' = toFixed2 lon →
        forecastKey lat' lon' units = forecastKey lat lon units) ∧
      (forecast s lat lon units resp ms).2.2 = [forecastRequest lat lon units] ∧
      (forecastRequest lat lon units).temperature_unit
        = (if units = "imperial" then "fahrenheit" else "celsius") ∧
      lookupA (forecast s lat lon units resp ms).2.1.store
          (forecastKey lat lon units)
        = some (.parsed (some resp) (some (s.time + 1000 * 60 * 10))) := by
  refine ⟨rfl, fun lat' lon' h1 h2 => by simp [forecastKey, h1, h2], ?_, rfl, ?_⟩
  · simp [forecast, getJSON, hmiss]
  · simp [forecast, getJSON, hmiss, cacheSet, insertA, lookupA]

/-- Witness for `forecast_cache_key_and_request` at a concrete input; the
key for (19.076, 72.8777) in metric units evaluates to
`meteo:19.08,72.88:metric`. -/
theorem forecast_cache_key_and_request_witness :
    (cacheGet (⟨[], [], 0⟩ : CacheState String)
        (forecastKey 19.076 72.8777 "metric")).val = none ∧
      (forecast (⟨[], [], 0⟩ : CacheState String) 19.076 72.8777 "metric" "data" 42).2.2
        = [forecastRequest 19.076 72.8777 "metric"] ∧
      forecastKey 19.076 72.8777 "metric" = "meteo:19.08,72.88:metric" := by
  refine ⟨rfl,
    (forecast_cache_key_and_request ⟨[], [], 0⟩ 19.076 72.8777 "metric" "data" 42
      rfl).2.2.1, ?_⟩
  have ha : ¬ ((19.076 : ℚ) < 0) := by norm_num
  have hb : ⌊(19.076 : ℚ) * 100 + 1 / 2⌋ = 1908 := by norm_num
  have hc : ¬ ((72.8777 : ℚ) < 0) := by norm_num
  have hd : ⌊(72.8777 : ℚ) * 100 + 1 / 2⌋ = 7288 := by norm_num
  simp only [forecastKey, toFixed2, toFixed2nn, if_neg ha, if_neg hc, hb, hd]
  rfl

/-- C7: `geocode` derives its cache key by lowercasing the query, so two
queries differing only in letter case share one cache entry; on a cache
miss, a missing or empty `results` field yields the empty list as an
ordinary return value (there is no error path), and the list is cached
with a 30-day expiry. -/
theorem geocode_empty_ok_case_insensitive (s : CacheState (List Place))
    (q q' : String) (resp : Option (List Place))
    (hcase : toLowerCase q = toLowerCase q')
    (hmiss : (cacheGet s (geoKey q)).val = none)
    (hempty : resp = none ∨ resp = some []) :
    geoKey q = "geo:" ++ toLowerCase q ∧
      geoKey q = geoKey q' ∧
      (geocode s q resp).1 = [] ∧
      lookupA (geocode s q resp).2.1.store (geoKey q)
        = some (.parsed (some []) (some (s.time + 1000 * 60 * 60 * 24 * 30))) := by
  refine ⟨rfl, by simp [geoKey, hcase], ?_, ?_⟩ <;>
    rcases hempty with h | h <;>
      simp [geocode, hmiss, h, cacheSet, insertA, lookupA]

/-- Witness for `geocode_empty_ok_case_insensitive` at a concrete input. -/
theorem geocode_empty_ok_case_insensitive_witness :
    toLowerCase "LoNdOn" = toLowerCase "london" ∧
      (cacheGet (⟨[], [], 0⟩ : CacheState (List Place)) (geoKey "LoNdOn")).val = none ∧
      ((none : Option (List Place)) = none ∨ (none : Option (List Place)) = some []) ∧
      (geocode (⟨[], [], 0⟩ : CacheState (List Place)) "LoNdOn" none).1 = [] :=
  ⟨by decide, rfl, Or.inl rfl,
    (geocode_empty_ok_case_insensitive ⟨[], [], 0⟩ "LoNdOn" "london" none
      (by decide) rfl (Or.inl rfl)).2.2.1⟩

/-- C9: a cold start with no persisted `lastCoords` defaults the place name
to "Mumbai, IN" and starts a load for the fallback coordinates
(19.076, 72.8777); the skeleton (loading state) is logged before any
render, and when the fetch resolves the render follows it. -/
theorem cold_start_fallback (su : Option String) :
    (initWorld su none).app.lat = some 19.076 ∧
      (initWorld su none).app.lon = some 72.8777 ∧
      (initWorld su none).app.place = some "Mumbai, IN" ∧
      (initWorld su none).ui = [UiEv.skeleton] ∧
      (step (initWorld su none) .loadOk).ui = [UiEv.skeleton, UiEv.render] := by
  rw [initWorld_cold]
  refine ⟨rfl, rfl, rfl, rfl, ?_⟩
  rw [step]
  simp only [deliverMutations, if_true]
  rw [(observerCb_skip _).2]
  rfl

/-- Witness for `cold_start_fallback` at a concrete input. -/
theorem cold_start_fallback_witness :
    (initWorld none none).app.lat = some 19.076 ∧
      (step (initWorld none none) .loadOk).ui = [UiEv.skeleton, UiEv.render] :=
  ⟨(cold_start_fallback none).1, (cold_start_fallback none).2.2.2.2⟩

/-- C10: when the active latitude or longitude is exactly 0 (equator or
prime meridian), `setUnits` still records the new preference in `state`
and `localStorage`, but the truthiness guard `state.lat && state.lon`
reads the zero coordinate as absent, so no re-fetch is triggered; the same
guard stops the observer from persisting `lastCoords`. -/
theorem setUnits_zero_coordinate (w : World) (u : String)
    (h : w.app.lat = some 0 ∨ w.app.lon = some 0) :
    (setUnits w u).1.app.units = u ∧
      (setUnits w u).1.storedUnits = some u ∧
      (setUnits w u).2 = false ∧
      (observerCb (setUnits w u).1).lastCoords = w.lastCoords := by
  refine ⟨rfl, rfl, ?_, ?_⟩ <;>
    rcases h with h | h <;>
      simp [setUnits, observerCb, truthyCoord, h]

/-- Witness for `setUnits_zero_coordinate` at a concrete input. -/
theorem setUnits_zero_coordinate_witness :
    ((⟨⟨"metric", some 0, some 5, none⟩, none, none, [], true⟩ : World).app.lat = some 0
        ∨ (⟨⟨"metric", some 0, some 5, none⟩, none, none, [], true⟩ : World).app.lon = some 0) ∧
      (setUnits ⟨⟨"metric", some 0, some 5, none⟩, none, none, [], true⟩ "imperial").2 = false :=
  ⟨Or.inl rfl,
    (setUnits_zero_coordinate ⟨⟨"metric", some 0, some 5, none⟩, none, none, [], true⟩
      "imperial" (Or.inl rfl)).2.2.1⟩

end SwiftWeather

